import Mathlib

/-!
Verification model of `src/chapters.rs` from fjz345/zaohelp: the Matroska
chapter document model (parse, iterate, render, append, serialize) and the
extraction wrapper. Rust structs become Lean structures; fallible paths
become `Option`/`Except`; the XML exchange layer that lives in the external
`serde_xml_rs` crate is modelled from the spec's schema (spec §4.1 and §6).
-/

/-- `ChapterDisplay` (chapters.rs:116-119): one display entry holding the
chapter title (serde-renamed element `ChapterString`). -/
structure ChapterDisplay where
  title : String
deriving DecidableEq

/-- `ChapterAtom` (chapters.rs:103-113): one chapter marker with a required
`start_time` (element `ChapterTimeStart`), an optional `end_time`
(element `ChapterTimeEnd`) and one `display` (element `ChapterDisplay`). -/
structure ChapterAtom where
  start_time : String
  end_time : Option String
  display : ChapterDisplay
deriving DecidableEq

/-- `EditionEntry` (chapters.rs:97-101): ordered sequence of chapter atoms
(serde-renamed `ChapterAtom`, `#[serde(default)]` so zero atoms give an
empty vector). -/
structure EditionEntry where
  chapters : List ChapterAtom
deriving DecidableEq

/-- `Chapters` (chapters.rs:46-50): the document root wrapping exactly one
`EditionEntry`. -/
structure Chapters where
  edition_entry : EditionEntry
deriving DecidableEq

/-- Rust `{:<12}` formatting: left-align, pad with spaces to minimum
width `w`; strings already at least `w` long are unchanged. -/
def padLeftAlign (s : String) (w : Nat) : String :=
  s ++ String.mk (List.replicate (w - s.length) ' ')

/-- One `writeln!` line of `Chapters::to_os_string` (chapters.rs:63-73):
`Start: {:<12} End: {:<12} Title: {}` with the missing end time replaced by
`"???"` via `unwrap_or_else`, and the trailing newline from `writeln!`. -/
def renderLine (c : ChapterAtom) : String :=
  "Start: " ++ padLeftAlign c.start_time 12 ++ " End: " ++
    padLeftAlign (c.end_time.getD "???") 12 ++ " Title: " ++ c.display.title ++ "\n"

/-- `Chapters::to_os_string` (chapters.rs:60-77): start from the empty string
and append one rendered line per chapter, in stored order. -/
def Chapters.to_os_string (cs : Chapters) : String :=
  cs.edition_entry.chapters.foldl (fun out c => out ++ renderLine c) ""

/-- The in-memory append step of `add_chapter_to_mkv` (chapters.rs:147-157):
build a `ChapterAtom` with the given start and title, `end_time = None`, and
`push` it onto the edition's chapter vector. -/
def add_chapter (cs : Chapters) (timestamp : String) (title : String) : Chapters :=
  { edition_entry :=
      { chapters := cs.edition_entry.chapters ++ [⟨timestamp, none, ⟨title⟩⟩] } }

/-- Modelled from the spec: XML element tree for the exchange format of
spec §6 (the real code delegates to the external `serde_xml_rs` crate,
which is not part of this repository). The schema uses no attributes, so a
node is an element with a name and children, or character data. -/
inductive Xml where
  | elem (name : String) (children : List Xml)
  | text (s : String)

/-- Error kinds from spec §7 for the paths exercised here: `MalformedInput`
for XML that does not match the schema, `ExtractionFailed` carrying the
distinguishing reason string built by `extract_chapters`, and an I/O error
for a missing output file (`fs::metadata` failing, chapters.rs:35). -/
inductive ZaoError where
  | malformedInput
  | extractionFailed (reason : String)
  | ioError
deriving DecidableEq

/-- Whitespace as the XML prolog allows between declaration and root. -/
def isWsChar (c : Char) : Bool :=
  c = ' ' || c = '\t' || c = '\n' || c = '\r'

/-- Drop leading whitespace characters. -/
def skipWs : List Char → List Char
  | [] => []
  | c :: cs => if isWsChar c then skipWs cs else c :: cs

/-- Drop everything up to and including the first closing `?>`. -/
def skipPast : List Char → Option (List Char)
  | [] => none
  | '?' :: '>' :: rest => some rest
  | _ :: rest => skipPast rest

/-- Modelled from the spec: skip the XML declaration `<?xml version="1.0"?>`
of spec §6 when present; anything else passes through for the element
parser to judge. -/
def stripDecl (cs : List Char) : Option (List Char) :=
  match cs with
  | '<' :: '?' :: rest => skipPast rest
  | _ => some cs

/-- Take characters until the predicate holds, returning them and the rest. -/
def takeUntil (p : Char → Bool) : List Char → List Char × List Char
  | [] => ([], [])
  | c :: cs =>
      if p c then ([], c :: cs)
      else
        let r := takeUntil p cs
        (c :: r.1, r.2)

/-- Tokens of the attribute-free XML subset of spec §6. -/
inductive XmlTok where
  | openTag (n : String)
  | closeTag (n : String)
  | textTok (s : String)
deriving DecidableEq

/-- Modelled from the spec: lexer for the attribute-free XML subset of
spec §6 — open tags, close tags and character data. Fuel-based structural
recursion so that concrete inputs evaluate by kernel reduction. -/
def lexTokens : Nat → List Char → Option (List XmlTok)
  | 0, _ => none
  | _ + 1, [] => some []
  | fuel + 1, '<' :: '/' :: rest =>
      match takeUntil (fun c => c = '>') rest with
      | (nm, '>' :: rest2) => (lexTokens fuel rest2).map (XmlTok.closeTag (String.mk nm) :: ·)
      | _ => none
  | fuel + 1, '<' :: rest =>
      match takeUntil (fun c => c = '>') rest with
      | (nm, '>' :: rest2) => (lexTokens fuel rest2).map (XmlTok.openTag (String.mk nm) :: ·)
      | _ => none
  | fuel + 1, c :: rest =>
      match takeUntil (fun d => d = '<') rest with
      | (txt, rest1) => (lexTokens fuel rest1).map (XmlTok.textTok (String.mk (c :: txt)) :: ·)

/-- Modelled from the spec: build the element tree from the token stream.
Parses a sequence of sibling nodes, stopping at a close tag (left for the
caller to match) or at the end of input. -/
def parseNodes : Nat → List XmlTok → Option (List Xml × List XmlTok)
  | 0, _ => none
  | _ + 1, [] => some ([], [])
  | _ + 1, XmlTok.closeTag n :: rest => some ([], XmlTok.closeTag n :: rest)
  | fuel + 1, XmlTok.textTok s :: rest =>
      match parseNodes fuel rest with
      | some (ns, r) => some (Xml.text s :: ns, r)
      | none => none
  | fuel + 1, XmlTok.openTag n :: rest =>
      match parseNodes fuel rest with
      | some (children, XmlTok.closeTag m :: r1) =>
          if n = m then
            match parseNodes fuel r1 with
            | some (ns, r2) => some (Xml.elem n children :: ns, r2)
            | none => none
          else none
      | _ => none

/-- Modelled from the spec: parse one XML document (spec §6): optional
declaration, then exactly one root element; non-whitespace character data
before the root element is malformed, as is leftover input after it. -/
def parseXmlDoc (s : String) : Option Xml :=
  match stripDecl (skipWs s.data) with
  | none => none
  | some cs0 =>
    match skipWs cs0 with
    | '<' :: cs1 =>
      match lexTokens (cs1.length + 2) ('<' :: cs1) with
      | some toks =>
        match parseNodes (toks.length + 1) toks with
        | some ([Xml.elem n children], []) => some (Xml.elem n children)
        | _ => none
      | none => none
    | _ => none

/-- Whether a node is an element with the given name. -/
def isElemNamed (n : String) (x : Xml) : Bool :=
  match x with
  | Xml.elem m _ => m == n
  | Xml.text _ => false

/-- First child element with the given name, as serde field lookup does. -/
def findElemNamed (n : String) : List Xml → Option Xml
  | [] => none
  | x :: xs => if isElemNamed n x then some x else findElemNamed n xs

/-- Character data of a leaf element: empty for no children, the text of a
single text child, and unsupported otherwise. -/
def elemText : Xml → Option String
  | Xml.elem _ [] => some ""
  | Xml.elem _ [Xml.text s] => some s
  | _ => none

/-- Modelled from the spec: deserialize a `ChapterDisplay` element
(spec §6), requiring its `ChapterString` child (`#[serde(rename)]` on
`title`, chapters.rs:116-119). -/
def deserializeDisplay (x : Xml) : Option ChapterDisplay :=
  match x with
  | Xml.elem _ cs =>
      match findElemNamed "ChapterString" cs with
      | some e => (elemText e).map ChapterDisplay.mk
      | none => none
  | Xml.text _ => none

/-- Modelled from the spec: deserialize one `ChapterAtom` element (spec §6):
required `ChapterTimeStart`, optional `ChapterTimeEnd`, required
`ChapterDisplay` — the field layout declared in chapters.rs:103-113. -/
def deserializeAtom (x : Xml) : Option ChapterAtom :=
  match x with
  | Xml.text _ => none
  | Xml.elem _ cs =>
      match findElemNamed "ChapterTimeStart" cs with
      | none => none
      | some stE =>
          match elemText stE with
          | none => none
          | some st =>
              match
                (match findElemNamed "ChapterTimeEnd" cs with
                 | none => some none
                 | some e => (elemText e).map some) with
              | none => none
              | some en =>
                  match findElemNamed "ChapterDisplay" cs with
                  | none => none
                  | some dE =>
                      match deserializeDisplay dE with
                      | none => none
                      | some d => some ⟨st, en, d⟩

/-- Deserialize a list of chapter atoms; any failure fails the whole list,
as serde sequence deserialization does. -/
def deserializeAtoms : List Xml → Option (List ChapterAtom)
  | [] => some []
  | x :: xs =>
      match deserializeAtom x with
      | none => none
      | some a =>
          match deserializeAtoms xs with
          | none => none
          | some rest => some (a :: rest)

/-- Modelled from the spec: deserialize the document from its root element,
which spec §6 fixes as `EditionEntry` ("element names ... match exactly"); the
`ChapterAtom` children in order form the chapter sequence, `#[serde(default)]`
making zero of them the empty sequence (chapters.rs:97-101). -/
def deserializeChapters (x : Xml) : Option Chapters :=
  match x with
  | Xml.text _ => none
  | Xml.elem n cs =>
      if n = "EditionEntry" then
        (deserializeAtoms (cs.filter (isElemNamed "ChapterAtom"))).map
          (fun l => ⟨⟨l⟩⟩)
      else none

/-- `parse_chapter_xml` (chapters.rs:121-124): parse the XML text into the
document model; any failure of the XML layer is spec §7's `MalformedInput`. -/
def parse_chapter_xml (s : String) : Except ZaoError Chapters :=
  match parseXmlDoc s with
  | none => Except.error ZaoError.malformedInput
  | some x =>
      match deserializeChapters x with
      | none => Except.error ZaoError.malformedInput
      | some c => Except.ok c

/-- Modelled from the spec: serialized text of one chapter per spec §6,
"including an end_time element only when present" (spec §4.1). -/
def serializeChapter (c : ChapterAtom) : String :=
  "<ChapterAtom>" ++
    "<ChapterTimeStart>" ++ c.start_time ++ "</ChapterTimeStart>" ++
    (match c.end_time with
     | some e => "<ChapterTimeEnd>" ++ e ++ "</ChapterTimeEnd>"
     | none => "") ++
    "<ChapterDisplay><ChapterString>" ++ c.display.title ++
    "</ChapterString></ChapterDisplay>" ++
  "</ChapterAtom>"

/-- Modelled from the spec: the serialized body emitted for the whole
document — the §6 structure rooted at `EditionEntry`, chapters in stored
order (spec §4.1 Serialize). -/
def serializeEdition (cs : Chapters) : String :=
  "<EditionEntry>" ++
    String.join (cs.edition_entry.chapters.map serializeChapter) ++
  "</EditionEntry>"

/-- Modelled from the spec: the element tree of one chapter per spec §6,
"including an end_time element only when present" (spec §4.1). -/
def chapterToXml (c : ChapterAtom) : Xml :=
  Xml.elem "ChapterAtom"
    ([Xml.elem "ChapterTimeStart" [Xml.text c.start_time]] ++
      (match c.end_time with
       | some e => [Xml.elem "ChapterTimeEnd" [Xml.text e]]
       | none => []) ++
      [Xml.elem "ChapterDisplay" [Xml.elem "ChapterString" [Xml.text c.display.title]]])

/-- Modelled from the spec: the element tree of the whole document, rooted
at `EditionEntry` with the chapters in stored order (spec §6). -/
def editionToXml (cs : Chapters) : Xml :=
  Xml.elem "EditionEntry" (cs.edition_entry.chapters.map chapterToXml)

/-- `chapters_to_xml` (chapters.rs:142-145): `format!(r#"<?xml
version="1.0"?>\n{}"#, inner)`. The Rust raw string makes `\n` a literal
backslash followed by the letter n, not a newline, so the Lean model joins
the declaration and the body with the two-character string `"\\n"`. -/
def chapters_to_xml (cs : Chapters) : String :=
  "<?xml version=\"1.0\"?>\\n" ++ serializeEdition cs

/-- One observed run of the external `mkvextract` process and the resulting
temp file: the exit status, the output file's length (`none` when
`fs::metadata` fails because the file is missing) and its text content. -/
structure ToolOutcome where
  exitSuccess : Bool
  fileLen : Option Nat
  content : String

/-- `extract_chapters` (chapters.rs:15-44) over an observed tool outcome:
bail with "Failed to extract chapters from <path>" on a non-zero exit,
propagate the metadata error for a missing file, bail with "Chapters not
found in <path>" on an empty file, and otherwise parse the file's text. -/
def extract_chapters (mkvPath : String) (o : ToolOutcome) : Except ZaoError Chapters :=
  if o.exitSuccess = false then
    Except.error (ZaoError.extractionFailed ("Failed to extract chapters from " ++ mkvPath))
  else
    match o.fileLen with
    | none => Except.error ZaoError.ioError
    | some n =>
        if n = 0 then
          Except.error (ZaoError.extractionFailed ("Chapters not found in " ++ mkvPath))
        else parse_chapter_xml o.content

/-- Concrete example input from spec §8. -/
def exampleXml : String :=
  "<EditionEntry><ChapterAtom><ChapterTimeStart>00:00:00.000000000</ChapterTimeStart><ChapterDisplay><ChapterString>Intro</ChapterString></ChapterDisplay></ChapterAtom></EditionEntry>"

/-- The document the spec §8 example is expected to parse to. -/
def exampleChapters : Chapters :=
  ⟨⟨[⟨"00:00:00.000000000", none, ⟨"Intro"⟩⟩]⟩⟩

/-- A document whose only `ChapterAtom` lacks the required
`ChapterTimeStart` child. -/
def missingStartXml : String :=
  "<EditionEntry><ChapterAtom><ChapterDisplay><ChapterString>NoStart</ChapterString></ChapterDisplay></ChapterAtom></EditionEntry>"

/-- A structurally conforming document that is semantic nonsense: the first
chapter's end precedes its start, the chapters are out of chronological
order, and the titles are duplicated. -/
def noSemanticsXml : String :=
  "<EditionEntry><ChapterAtom><ChapterTimeStart>00:10:00.000000000</ChapterTimeStart><ChapterTimeEnd>00:05:00.000000000</ChapterTimeEnd><ChapterDisplay><ChapterString>Same</ChapterString></ChapterDisplay></ChapterAtom><ChapterAtom><ChapterTimeStart>00:01:00.000000000</ChapterTimeStart><ChapterDisplay><ChapterString>Same</ChapterString></ChapterDisplay></ChapterAtom></EditionEntry>"

/-- The verbatim in-memory form of `noSemanticsXml`. -/
def noSemanticsChapters : Chapters :=
  ⟨⟨[⟨"00:10:00.000000000", some "00:05:00.000000000", ⟨"Same"⟩⟩,
     ⟨"00:01:00.000000000", none, ⟨"Same"⟩⟩]⟩⟩

instance {ε α : Type} [DecidableEq ε] [DecidableEq α] : DecidableEq (Except ε α) := fun a b =>
  match a, b with
  | Except.ok x, Except.ok y =>
      if h : x = y then isTrue (by rw [h]) else isFalse (by simp [h])
  | Except.error x, Except.error y =>
      if h : x = y then isTrue (by rw [h]) else isFalse (by simp [h])
  | Except.ok _, Except.error _ => isFalse (by simp)
  | Except.error _, Except.ok _ => isFalse (by simp)

/-- Deserializing a chapter list fails whenever any member fails. -/
theorem deserializeAtoms_of_mem_none (l1 l2 : List Xml) (x : Xml)
    (hx : deserializeAtom x = none) :
    deserializeAtoms (l1 ++ x :: l2) = none := by
  induction l1 with
  | nil => simp [deserializeAtoms, hx]
  | cons y ys ih =>
      simp only [List.cons_append, deserializeAtoms, List.append_eq]
      cases h : deserializeAtom y
      · rfl
      · rw [ih]

/-- Deserializing the serialized tree of one chapter restores it verbatim. -/
theorem deserializeAtom_chapterToXml (a : ChapterAtom) :
    deserializeAtom (chapterToXml a) = some a := by
  obtain ⟨st, en, ⟨ti⟩⟩ := a
  cases en <;> rfl

/-- A serialized chapter tree is a `ChapterAtom` element. -/
theorem isAtom_chapterToXml (a : ChapterAtom) :
    isElemNamed "ChapterAtom" (chapterToXml a) = true := by
  obtain ⟨st, en, ⟨ti⟩⟩ := a
  cases en <;> rfl

/-- Deserializing a list of serialized chapter trees restores the list. -/
theorem deserializeAtoms_map_chapterToXml (l : List ChapterAtom) :
    deserializeAtoms (l.map chapterToXml) = some l := by
  induction l with
  | nil => rfl
  | cons a l ih => simp [deserializeAtoms, deserializeAtom_chapterToXml, ih]

set_option maxRecDepth 20000 in
/-- C1: serializing a parsed document and re-parsing is supposed to restore
the same chapter sequence, but `chapters_to_xml` joins the XML declaration
and body with a literal backslash-n (raw-string slip, chapters.rs:144), so
the parser rejects the serializer's own output as malformed. Re-parsing
succeeds, with the identical sequence, once the join is an actual newline —
or with no declaration at all — so the header join is exactly the defect. -/
theorem chapters_roundtrip_broken_by_header :
    parse_chapter_xml (chapters_to_xml exampleChapters)
      = Except.error ZaoError.malformedInput
  ∧ parse_chapter_xml
      ("<?xml version=\"1.0\"?>" ++ "\n" ++ serializeEdition exampleChapters)
      = Except.ok exampleChapters
  ∧ parse_chapter_xml (serializeEdition exampleChapters) = Except.ok exampleChapters := by
  refine ⟨by decide, by decide, by decide⟩

/-- C2: the serialized text always starts with the XML declaration and the
declaration and body are joined by the two characters backslash and n,
which is not the one-character newline string. -/
theorem chapters_to_xml_header_literal_escape (cs : Chapters) :
    chapters_to_xml cs
      = ("<?xml version=\"1.0\"?>" ++ String.mk ['\\', 'n']) ++ serializeEdition cs
    ∧ String.mk ['\\', 'n'] ≠ "\n" := by
  constructor
  · show "<?xml version=\"1.0\"?>\\n" ++ serializeEdition cs = _
    have hl : ("<?xml version=\"1.0\"?>\\n" : String)
        = "<?xml version=\"1.0\"?>" ++ String.mk ['\\', 'n'] := by decide
    rw [hl]
  · decide

set_option maxRecDepth 20000 in
/-- C3: the spec §8 example parses to one chapter with the verbatim start
time, no end time and title `Intro`, and renders to exactly the expected
display line followed by a newline. -/
theorem parse_example_and_render :
    parse_chapter_xml exampleXml = Except.ok exampleChapters
  ∧ Chapters.to_os_string exampleChapters
      = "Start: 00:00:00.000000000 End: ???          Title: Intro\n" := by
  refine ⟨by decide, by decide⟩

/-- C4: appending a chapter places a new atom with the given start and
title and no end time at the tail of the sequence, leaving the existing
chapters unchanged; in particular `[A, B]` becomes `[A, B, C]`. -/
theorem add_chapter_appends_at_tail :
    (∀ (d : Chapters) (ts ti : String),
      (add_chapter d ts ti).edition_entry.chapters
        = d.edition_entry.chapters ++ [⟨ts, none, ⟨ti⟩⟩])
  ∧ (∀ (A B : ChapterAtom) (ts ti : String),
      (add_chapter ⟨⟨[A, B]⟩⟩ ts ti).edition_entry.chapters
        = [A, B, ⟨ts, none, ⟨ti⟩⟩]) := by
  exact ⟨fun d ts ti => rfl, fun A B ts ti => rfl⟩

/-- C5: a chapter without an end time renders with the fixed nonempty
placeholder `???` (padded to the 12-character field) in its End field. -/
theorem missing_end_renders_placeholder (a : ChapterAtom) (h : a.end_time = none) :
    renderLine a
      = "Start: " ++ padLeftAlign a.start_time 12 ++ " End: " ++ "???         " ++
          " Title: " ++ a.display.title ++ "\n"
    ∧ ("???         " : String) ≠ "" := by
  constructor
  · obtain ⟨st, en, ⟨ti⟩⟩ := a
    cases en
    · rfl
    · simp at h
  · decide

/-- Witness for C5 at a concrete open-ended chapter. -/
theorem missing_end_renders_placeholder_witness :
    renderLine ⟨"00:07:00.000000000", none, ⟨"Outro"⟩⟩
      = "Start: " ++ padLeftAlign "00:07:00.000000000" 12 ++ " End: " ++ "???         " ++
          " Title: " ++ "Outro" ++ "\n"
    ∧ ("???         " : String) ≠ "" :=
  missing_end_renders_placeholder ⟨"00:07:00.000000000", none, ⟨"Outro"⟩⟩ rfl

set_option maxRecDepth 20000 in
/-- C6: a `ChapterAtom` element with no `ChapterTimeStart` child makes
deserialization of the whole document fail — no silent default start time —
and at the string level such input parses to the `MalformedInput` error. -/
theorem missing_start_is_malformed (pre post cs : List Xml)
    (h : findElemNamed "ChapterTimeStart" cs = none) :
    deserializeChapters
        (Xml.elem "EditionEntry" (pre ++ Xml.elem "ChapterAtom" cs :: post)) = none
  ∧ parse_chapter_xml missingStartXml = Except.error ZaoError.malformedInput := by
  constructor
  · have hbad : deserializeAtom (Xml.elem "ChapterAtom" cs) = none := by
      simp [deserializeAtom, h]
    simp only [deserializeChapters, if_true]
    rw [List.filter_append, List.filter_cons,
      if_pos (show isElemNamed "ChapterAtom" (Xml.elem "ChapterAtom" cs) = true from rfl)]
    rw [deserializeAtoms_of_mem_none _ _ _ hbad]
    rfl
  · decide

set_option maxRecDepth 20000 in
/-- Witness for C6: one atom holding only a display entry. -/
theorem missing_start_is_malformed_witness :
    deserializeChapters
        (Xml.elem "EditionEntry"
          ([] ++ Xml.elem "ChapterAtom"
              [Xml.elem "ChapterDisplay" [Xml.elem "ChapterString" [Xml.text "NoStart"]]] :: []))
        = none
  ∧ parse_chapter_xml missingStartXml = Except.error ZaoError.malformedInput :=
  missing_start_is_malformed [] []
    [Xml.elem "ChapterDisplay" [Xml.elem "ChapterString" [Xml.text "NoStart"]]] rfl

set_option maxRecDepth 20000 in
/-- C7: an `EditionEntry` with zero `ChapterAtom` children deserializes
successfully to the empty chapter sequence, and at the string level
`<EditionEntry></EditionEntry>` parses successfully to the empty document. -/
theorem zero_atoms_parse_empty (cs : List Xml)
    (h : cs.filter (isElemNamed "ChapterAtom") = []) :
    deserializeChapters (Xml.elem "EditionEntry" cs) = some ⟨⟨[]⟩⟩
  ∧ parse_chapter_xml "<EditionEntry></EditionEntry>" = Except.ok ⟨⟨[]⟩⟩ := by
  constructor
  · simp [deserializeChapters, h, deserializeAtoms]
  · decide

set_option maxRecDepth 20000 in
/-- Witness for C7: children that are character data only, hence zero
`ChapterAtom` children. -/
theorem zero_atoms_parse_empty_witness :
    deserializeChapters (Xml.elem "EditionEntry" [Xml.text "no atoms here"]) = some ⟨⟨[]⟩⟩
  ∧ parse_chapter_xml "<EditionEntry></EditionEntry>" = Except.ok ⟨⟨[]⟩⟩ :=
  zero_atoms_parse_empty [Xml.text "no atoms here"] rfl

set_option maxRecDepth 40000 in
/-- C8: deserialization performs no semantic validation: every structurally
conforming document deserializes successfully with all timestamp and title
strings preserved verbatim, whatever they contain; in particular a concrete
input whose end time precedes its start time, whose chapters are out of
chronological order and whose titles are duplicated parses successfully and
verbatim. -/
theorem parse_no_semantic_validation :
    (∀ l : List ChapterAtom,
      deserializeChapters (Xml.elem "EditionEntry" (l.map chapterToXml)) = some ⟨⟨l⟩⟩)
  ∧ parse_chapter_xml noSemanticsXml = Except.ok noSemanticsChapters := by
  constructor
  · intro l
    simp only [deserializeChapters, if_true]
    rw [List.filter_eq_self.mpr (fun a ha => by
      obtain ⟨b, _, rfl⟩ := List.mem_map.mp ha
      exact isAtom_chapterToXml b)]
    rw [deserializeAtoms_map_chapterToXml]
    rfl
  · decide

/-- C9: extraction fails with the "Failed to extract chapters from" reason
exactly on a non-zero exit status, fails with the distinct "Chapters not
found in" reason on a zero exit status with an empty output file, and can
succeed only when the tool exited successfully and the output file exists
with non-zero length; the two reason strings always differ, so callers can
tell a tool error from a container with no chapters. -/
theorem extract_chapters_outcomes :
    (∀ (p : String) (o : ToolOutcome), o.exitSuccess = false →
      extract_chapters p o
        = Except.error (ZaoError.extractionFailed ("Failed to extract chapters from " ++ p)))
  ∧ (∀ (p : String) (o : ToolOutcome), o.exitSuccess = true → o.fileLen = some 0 →
      extract_chapters p o
        = Except.error (ZaoError.extractionFailed ("Chapters not found in " ++ p)))
  ∧ (∀ (p : String) (o : ToolOutcome), (extract_chapters p o).isOk = true →
      o.exitSuccess = true ∧ o.fileLen ≠ none ∧ o.fileLen ≠ some 0)
  ∧ (∀ p : String,
      ("Failed to extract chapters from " ++ p) ≠ ("Chapters not found in " ++ p)) := by
  refine ⟨?_, ?_, ?_, ?_⟩
  · intro p o h
    unfold extract_chapters
    rw [h, if_pos rfl]
  · intro p o h1 h2
    unfold extract_chapters
    rw [h1, if_neg (by decide), h2]
    rfl
  · intro p o hok
    obtain ⟨es, fl, ct⟩ := o
    cases es
    · simp [extract_chapters, Except.isOk, Except.toBool] at hok
    · cases fl with
      | none => simp [extract_chapters, Except.isOk, Except.toBool] at hok
      | some n =>
          refine ⟨rfl, by simp, ?_⟩
          intro hcontra
          injection hcontra with hn
          subst hn
          simp [extract_chapters, Except.isOk, Except.toBool] at hok
  · intro p h
    have hlen := congrArg String.length h
    rw [String.length_append, String.length_append] at hlen
    rw [show ("Failed to extract chapters from " : String).length = 32 from rfl] at hlen
    rw [show ("Chapters not found in " : String).length = 22 from rfl] at hlen
    omega

set_option maxRecDepth 20000 in
/-- Witness for C9: a failed run, an empty-file run, a successful run and
the distinctness of the two reasons, at concrete inputs. -/
theorem extract_chapters_outcomes_witness :
    extract_chapters "movie.mkv" ⟨false, none, ""⟩
      = Except.error (ZaoError.extractionFailed ("Failed to extract chapters from " ++ "movie.mkv"))
  ∧ extract_chapters "movie.mkv" ⟨true, some 0, ""⟩
      = Except.error (ZaoError.extractionFailed ("Chapters not found in " ++ "movie.mkv"))
  ∧ ((⟨true, some 180, exampleXml⟩ : ToolOutcome).exitSuccess = true
      ∧ (⟨true, some 180, exampleXml⟩ : ToolOutcome).fileLen ≠ none
      ∧ (⟨true, some 180, exampleXml⟩ : ToolOutcome).fileLen ≠ some 0)
  ∧ ("Failed to extract chapters from " ++ "movie.mkv") ≠ ("Chapters not found in " ++ "movie.mkv") :=
  ⟨extract_chapters_outcomes.1 "movie.mkv" ⟨false, none, ""⟩ rfl,
   extract_chapters_outcomes.2.1 "movie.mkv" ⟨true, some 0, ""⟩ rfl rfl,
   extract_chapters_outcomes.2.2.1 "movie.mkv" ⟨true, some 180, exampleXml⟩ (by decide),
   extract_chapters_outcomes.2.2.2 "movie.mkv"⟩

/-- C10: the display rendering is exactly the concatenation, in stored
order, of one newline-terminated line per chapter; the empty document
renders to the empty string. -/
theorem to_os_string_one_line_per_chapter :
    (∀ d : Chapters, d.to_os_string = String.join (d.edition_entry.chapters.map renderLine))
  ∧ (∀ a : ChapterAtom, ∃ line, renderLine a = line ++ "\n")
  ∧ Chapters.to_os_string ⟨⟨[]⟩⟩ = "" := by
  refine ⟨?_, ?_, rfl⟩
  · intro d
    show d.edition_entry.chapters.foldl (fun out c => out ++ renderLine c) ""
      = (d.edition_entry.chapters.map renderLine).foldl (fun r s => r ++ s) ""
    rw [List.foldl_map]
  · intro a
    exact ⟨"Start: " ++ padLeftAlign a.start_time 12 ++ " End: " ++
      padLeftAlign (a.end_time.getD "???") 12 ++ " Title: " ++ a.display.title, rfl⟩
